import Mathlib

/-!
Shallow embedding of the IAM domain core (tenants, registration invitations,
groups, nested-group membership traversal, roles) together with theorems
checking the natural-language specification against it.

Conventions of the embedding:
* Rust `DateTime<Utc>` instants are modelled as `Int`; the ambient clock
  (`Utc::now()`) is threaded as an explicit `now : Int` argument.
* `anyhow::Result<T>` is modelled as `Except DomainError T` (or
  `Except ValidateError T` / `Except TenantError T` where the Rust code uses
  those concrete error types).
* Rust `&mut self` methods are modelled as functions returning the updated
  value on success; a failing call returns only an error, so the pre-call
  state is untouched by construction, exactly as in the Rust code where the
  guards run before any mutation.
* The unbounded recursive traversal of `GroupMemberService` is made total
  with an explicit `fuel : Nat` bound; `DomainError.fuelExhausted` is a
  modelling artifact that never arises for acyclic graphs when `fuel`
  exceeds the nesting depth.
-/

deriving instance DecidableEq for Except

namespace Iam

/-- Error type of `common/src/validate.rs` (`validate::Error`); variants not
exercised by any claim are omitted. Rendered payloads are kept as
plain strings. -/
inductive ValidateError where
  | required (name : String)
  | notEqual (name expected : String)
  | tooShort (name : String) (min : Nat)
  | tooLong (name : String) (max : Nat)
  | greatestThan (name mx : String)
  | generic (msg : String)
deriving DecidableEq, Repr

/-- `validate::not_empty` from `common/src/validate.rs`: error iff the value
is the empty string (Rust tests `value.is_empty()`). -/
def validate.not_empty (name value : String) : Except ValidateError Unit :=
  if value = "" then .error (.required name) else .ok ()

/-- `validate::equals` from `common/src/validate.rs`: error iff
`value != expected`; the error carries the rendered expected value. -/
def validate.equals {α : Type} [DecidableEq α] [ToString α]
    (name : String) (value expected : α) : Except ValidateError Unit :=
  if value ≠ expected then .error (.notEqual name (toString expected)) else .ok ()

/-- `validate::is_true` from `common/src/validate.rs`, embedded exactly as
written there: the body is `if !value { Ok(()) } else { Err(...) }`, i.e. it
succeeds when the value is FALSE — identical to `is_false` below. -/
def validate.is_true (value : Bool) (msg : String) : Except ValidateError Unit :=
  if !value then .ok () else .error (.generic msg)

/-- `validate::is_false` from `common/src/validate.rs`: succeeds iff the value
is false. -/
def validate.is_false (value : Bool) (msg : String) : Except ValidateError Unit :=
  if !value then .ok () else .error (.generic msg)

/-- `validate::max_length` from `common/src/validate.rs`. Rust `str::len` is
the UTF-8 byte length; `String.length` counts characters, which agrees on the
ASCII inputs all claims use. -/
def validate.max_length (name value : String) (max : Nat) : Except ValidateError Unit :=
  if value.length > max then .error (.tooLong name max) else .ok ()

/-- `validate::min_length` from `common/src/validate.rs`. -/
def validate.min_length (name value : String) (min : Nat) : Except ValidateError Unit :=
  if value.length < min then .error (.tooShort name min) else .ok ()

/-- `validate::max` from `common/src/validate.rs`: error iff `value > max`. -/
def validate.max {α : Type} [LinearOrder α] [ToString α]
    (name : String) (value mx : α) : Except ValidateError Unit :=
  if value > mx then .error (.greatestThan name (toString mx)) else .ok ()

/-- `Validity` from `iam/src/domain/identity/validity.rs`. The Rust variants
wrap `RangeFrom` / `RangeToInclusive` / `RangeInclusive`; only the bounds are
stored here. -/
inductive Validity where
  | openEnded
  | startingOn (start : Int)
  | until (finish : Int)
  | between (start finish : Int)
deriving DecidableEq, Repr

/-- `Validity::new` from `validity.rs:26`: with both bounds present it first
runs `validate::max("start_date", start, end)`. -/
def Validity.new (start_date end_date : Option Int) : Except ValidateError Validity :=
  match start_date, end_date with
  | some s, some e =>
    match validate.max "start_date" s e with
    | .error err => .error err
    | .ok _ => .ok (.between s e)
  | some s, none => .ok (.startingOn s)
  | none, some e => .ok (.until e)
  | none, none => .ok .openEnded

/-- `Validity::is_valid` from `validity.rs:59`, with `Utc::now()` passed in as
`now`. `RangeFrom.contains` is `start ≤ now`, `RangeToInclusive.contains` is
`now ≤ end`, `RangeInclusive.contains` is the conjunction. -/
def Validity.is_valid (v : Validity) (now : Int) : Bool :=
  match v with
  | .openEnded => true
  | .startingOn s => s ≤ now
  | .until e => now ≤ e
  | .between s e => s ≤ now && now ≤ e

/-- `InvitationValidity` from
`iam/src/domain/identity/registration_invitation.rs:178`. -/
inductive InvitationValidity where
  | openEnded
  | startingOn (date : Int)
  | until (date : Int)
  | between (start finish : Int)
deriving DecidableEq, Repr

/-- `InvitationValidityError` from `registration_invitation.rs:190`. -/
inductive InvitationValidityError where
  | invalidStartDate (date : Int)
  | invalidEndDate (date : Int)
deriving DecidableEq, Repr

/-- `InvitationValidity::is_available` from `registration_invitation.rs:228`,
with `Utc::now()` passed in as `now`. -/
def InvitationValidity.is_available (v : InvitationValidity) (now : Int) : Bool :=
  match v with
  | .openEnded => true
  | .startingOn date => date ≤ now
  | .until date => now ≤ date
  | .between s e => s ≤ now && now ≤ e

/-- `RegistrationInvitation` from `registration_invitation.rs:9`; the
validated newtypes `InvitationId` and `InvitationDescription` are stored as
their underlying strings. -/
structure RegistrationInvitation where
  invitation_id : String
  description : String
  validity : InvitationValidity
deriving DecidableEq, Repr

/-- `RegistrationInvitation::new` from `registration_invitation.rs:32`; the
randomly generated `InvitationId` is passed in explicitly as `newId`. -/
def RegistrationInvitation.new (newId description : String) : RegistrationInvitation :=
  ⟨newId, description, .openEnded⟩

/-- `RegistrationInvitation::is_identified_by` from
`registration_invitation.rs:56`: matches on id or on description. -/
def RegistrationInvitation.is_identified_by
    (inv : RegistrationInvitation) (identifier : String) : Bool :=
  inv.invitation_id == identifier || inv.description == identifier

/-- `RegistrationInvitation::is_available` from
`registration_invitation.rs:60`. -/
def RegistrationInvitation.is_available
    (inv : RegistrationInvitation) (now : Int) : Bool :=
  inv.validity.is_available now

/-- `TenantStatus` from `iam/src/domain/identity/tenant.rs:281`. -/
inductive TenantStatus where
  | active
  | inactive
deriving DecidableEq, Repr

/-- `TenantError` from `tenant.rs:15`. -/
inductive TenantError where
  | notActive
  | invitationExists (identifier : String)
  | invitationNotFound (identifier : String)
  | invalidInvitationValidity (e : InvitationValidityError)
deriving DecidableEq, Repr

/-- `Tenant` from `tenant.rs:6`; `TenantName` / `TenantDescription` newtypes
are stored as their underlying strings. -/
structure Tenant where
  tenant_id : Nat
  name : String
  description : Option String
  status : TenantStatus
  invitations : List RegistrationInvitation
deriving DecidableEq, Repr

/-- `Tenant::assert_active` from `tenant.rs:160`. -/
def Tenant.assert_active (t : Tenant) : Except TenantError Unit :=
  match t.status with
  | TenantStatus.active => .ok ()
  | _ => .error TenantError.notActive

/-- `Tenant::is_registration_available_through` from `tenant.rs:100`:
asserts activity, then tests availability of the FIRST invitation identified
by the given identifier (`Tenant::invitation` is `iter().find(...)`). -/
def Tenant.is_registration_available_through
    (t : Tenant) (now : Int) (identifier : String) : Except TenantError Bool :=
  match t.assert_active with
  | .error e => .error e
  | .ok _ =>
    match t.invitations.find? (fun inv => inv.is_identified_by identifier) with
    | some inv => .ok (inv.is_available now)
    | none => .ok false

/-- `Tenant::offer_invitation` from `tenant.rs:109`: asserts activity, rejects
if the description currently resolves to an available invitation, otherwise
appends a fresh open-ended invitation; the trailing `invitation_mut` lookup of
the Rust code is kept (its `None` branch is unreachable after the push). The
Rust method returns a mutable borrow of the found invitation; the model
returns the updated tenant. -/
def Tenant.offer_invitation
    (t : Tenant) (now : Int) (newId description : String) : Except TenantError Tenant :=
  match t.assert_active with
  | .error e => .error e
  | .ok _ =>
    match t.is_registration_available_through now description with
    | .error e => .error e
    | .ok true => .error (.invitationExists description)
    | .ok false =>
      let t2 : Tenant :=
        {t with invitations := t.invitations ++ [RegistrationInvitation.new newId description]}
      match t2.invitations.find? (fun inv => inv.is_identified_by description) with
      | some _ => .ok t2
      | none => .error (.invitationNotFound description)

/-- Helper embedding `Tenant::invitation_mut` followed by
`RegistrationInvitation::redefine_as`: rewrite the FIRST invitation identified
by `identifier` using the redefiner; when no invitation matches, the Rust code
returns `InvitationExists(identifier)` (sic, `tenant.rs:128`). -/
def redefineFirst (identifier : String)
    (rf : InvitationValidity → Except InvitationValidityError InvitationValidity) :
    List RegistrationInvitation → Except TenantError (List RegistrationInvitation)
  | [] => .error (TenantError.invitationExists identifier)
  | inv :: rest =>
    if inv.is_identified_by identifier then
      match rf inv.validity with
      | .ok v => .ok ({inv with validity := v} :: rest)
      | .error e => .error (.invalidInvitationValidity e)
    else
      match redefineFirst identifier rf rest with
      | .ok rest2 => .ok (inv :: rest2)
      | .error e => .error e

/-- `Tenant::redefine_invitation_as` from `tenant.rs:123`. -/
def Tenant.redefine_invitation_as (t : Tenant) (identifier : String)
    (rf : InvitationValidity → Except InvitationValidityError InvitationValidity) :
    Except TenantError Tenant :=
  match t.assert_active with
  | .error e => .error e
  | .ok _ =>
    match redefineFirst identifier rf t.invitations with
    | .ok invs => .ok {t with invitations := invs}
    | .error e => .error e

/-- `Tenant::withdraw_invitation` from `tenant.rs:133`: asserts activity, then
removes the invitation at the position of the first match. -/
def Tenant.withdraw_invitation (t : Tenant) (identifier : String) :
    Except TenantError Tenant :=
  match t.assert_active with
  | .error e => .error e
  | .ok _ =>
    match t.invitations.findIdx? (fun inv => inv.is_identified_by identifier) with
    | some i => .ok {t with invitations := t.invitations.eraseIdx i}
    | none => .error (.invitationNotFound identifier)

/-- `InvitationDescription::new` from
`iam/src/domain/identity/registration_invitation/invitation_description.rs:13`
(the sibling definition at `registration_invitation.rs:141` enforces the same
bounds): non-empty and at most 100 characters. The validated newtype is
modelled as the underlying string. -/
def InvitationDescription.new (description : String) : Except ValidateError String :=
  match validate.not_empty "description" description with
  | .error e => .error e
  | .ok _ =>
    match validate.max_length "description" description 100 with
    | .error e => .error e
    | .ok _ => .ok description

/-- User aggregate. `group.rs` and `role.rs` call `user.tenant_id()`,
`user.username()` and `user.is_enabled()`, but the `impl User` block carrying
those accessors is not under src (only the struct declaration in `user.rs:13`
and the value objects are). Modelled from the spec: a user is "live" only when
`Enabled` and the wrapped `Validity` currently holds (spec section 3,
Enablement); the `enabled` field records the boolean value of `is_enabled()`
at the ambient instant of the call. -/
structure User where
  tenant_id : Nat
  username : String
  enabled : Bool
deriving DecidableEq, Repr

/-- Accessor matching the `user.is_enabled()` calls in `group.rs`. -/
def User.is_enabled (u : User) : Bool := u.enabled

/-- `GroupMember` from `iam/src/domain/identity/group_member.rs`: a tagged
user-name or group-name reference with structural equality. -/
inductive GroupMember where
  | user (username : String)
  | group (group_name : String)
deriving DecidableEq, Repr

/-- `Group` from `iam/src/domain/identity/group.rs:9`. -/
structure Group where
  tenant_id : Nat
  name : String
  description : String
  members : List GroupMember
deriving DecidableEq, Repr

/-- Error type for the `anyhow::Result` values of `group.rs`, `role.rs` and
`group_member_service.rs`: either a `validate::Error`, a propagated repository
error other than not-found, or exhaustion of the modelling fuel. -/
inductive DomainError where
  | validation (e : ValidateError)
  | repoFailure (e : String)
  | fuelExhausted
deriving DecidableEq, Repr

/-- Outcome of a repository lookup: `found`, the dedicated
`GroupRepositoryError::NotFound` / `UserRepositoryError::NotFound` variant, or
any other repository failure (`failure`), which the traversal must not
swallow. -/
inductive RepoResult (α : Type) where
  | found (value : α)
  | notFound
  | failure (e : String)
deriving DecidableEq, Repr

/-- The two read-only repositories held by `GroupMemberService`
(`group_member_service.rs:7`): lookup by tenant id and name. -/
structure Repos where
  findGroupByName : Nat → String → RepoResult Group
  findUserByUsername : Nat → String → RepoResult User

/-- `GroupMemberService::confirm_user` from `group_member_service.rs:20`:
re-resolve the user by tenant and username; `NotFound` maps to `Ok(false)`,
any other error is propagated, a found user yields its current enablement. -/
def confirm_user (repos : Repos) (group : Group) (user : User) :
    Except DomainError Bool :=
  match repos.findUserByUsername group.tenant_id user.username with
  | RepoResult.found u => .ok u.is_enabled
  | RepoResult.notFound => .ok false
  | RepoResult.failure e => .error (.repoFailure e)

/-- Loop body of `GroupMemberService::is_member_group`
(`group_member_service.rs:32`): walk the member list; an equal member returns
true; a nested group is resolved and searched through `recur` (the recursive
call one fuel level down); a `NotFound` lookup is skipped; any other lookup
error aborts. -/
def isMemberGroupLoop (repos : Repos) (tid : Nat) (member : GroupMember)
    (recur : Group → Except DomainError Bool) :
    List GroupMember → Except DomainError Bool
  | [] => .ok false
  | gm :: rest =>
    if gm = member then .ok true
    else
      match gm with
      | GroupMember.group name =>
        match repos.findGroupByName tid name with
        | RepoResult.found nested =>
          match recur nested with
          | .ok true => .ok true
          | .ok false => isMemberGroupLoop repos tid member recur rest
          | .error e => .error e
        | RepoResult.notFound => isMemberGroupLoop repos tid member recur rest
        | RepoResult.failure e => .error (.repoFailure e)
      | GroupMember.user _ => isMemberGroupLoop repos tid member recur rest

/-- `GroupMemberService::is_member_group` from `group_member_service.rs:31`,
with `fuel` bounding the nesting depth of the recursion (the Rust recursion is
unbounded). -/
def is_member_group (repos : Repos) :
    Nat → Group → GroupMember → Except DomainError Bool
  | 0, _, _ => .error DomainError.fuelExhausted
  | fuel+1, group, member =>
    isMemberGroupLoop repos group.tenant_id member
      (fun nested => is_member_group repos fuel nested member) group.members

/-- `Group::add_group` from `group.rs:73`: tenant check, then the cycle guard
`validate::is_false(member_service.is_member_group(group, self_as_member))`,
then an idempotent push of the new member. -/
def Group.add_group (repos : Repos) (fuel : Nat) (self other : Group) :
    Except DomainError Group :=
  match validate.equals "tenant_id" other.tenant_id self.tenant_id with
  | .error e => .error (.validation e)
  | .ok _ =>
    match is_member_group repos fuel other (GroupMember.group self.name) with
    | .error e => .error e
    | .ok isMember =>
      match validate.is_false isMember "group recursion detected" with
      | .error e => .error (.validation e)
      | .ok _ =>
        let member := GroupMember.group other.name
        if self.members.contains member then .ok self
        else .ok {self with members := self.members ++ [member]}

/-- `Group::add_user` from `group.rs:83`: tenant check, then
`validate::is_true(user.is_enabled(), "user is not enabled")` (note the
inverted body of `is_true` in `validate.rs:54`), then an idempotent push. -/
def Group.add_user (g : Group) (u : User) : Except DomainError Group :=
  match validate.equals "tenant_id" u.tenant_id g.tenant_id with
  | .error e => .error (.validation e)
  | .ok _ =>
    match validate.is_true u.is_enabled "user is not enabled" with
    | .error e => .error (.validation e)
    | .ok _ =>
      let member := GroupMember.user u.username
      if g.members.contains member then .ok g
      else .ok {g with members := g.members ++ [member]}

/-- Loop body of `GroupMemberService::is_user_in_nested_group`
(`group_member_service.rs:58`): for every nested-group member resolve the
group and ask `recur` (Group::is_member one fuel level down); `NotFound` is
skipped, any other lookup error aborts. -/
def nestedGroupLoop (repos : Repos) (tid : Nat)
    (recur : Group → Except DomainError Bool) :
    List GroupMember → Except DomainError Bool
  | [] => .ok false
  | gm :: rest =>
    match gm with
    | GroupMember.group name =>
      match repos.findGroupByName tid name with
      | RepoResult.found nested =>
        match recur nested with
        | .ok true => .ok true
        | .ok false => nestedGroupLoop repos tid recur rest
        | .error e => .error e
      | RepoResult.notFound => nestedGroupLoop repos tid recur rest
      | RepoResult.failure e => .error (.repoFailure e)
    | GroupMember.user _ => nestedGroupLoop repos tid recur rest

/-- `Group::is_member` from `group.rs:93`: tenant check, the (inverted)
`is_true` enablement check, then either `confirm_user` for a direct member or
the nested-group search. The Rust method delegates the latter to
`GroupMemberService::is_user_in_nested_group`; its body is inlined here (the
fuel match) so that the mutual recursion is structural on fuel —
`is_user_in_nested_group` below is that same body. The error propagation of
the Rust `?` operator is written monadically with `Except.bind`. -/
def Group.is_member (repos : Repos) (fuel : Nat) (group : Group) (user : User) :
    Except DomainError Bool :=
  Except.bind
    (Except.mapError DomainError.validation
      (validate.equals "tenant_id" user.tenant_id group.tenant_id)) (fun _ =>
  Except.bind
    (Except.mapError DomainError.validation
      (validate.is_true user.is_enabled "user is not enabled")) (fun _ =>
    if group.members.contains (GroupMember.user user.username) then
      confirm_user repos group user
    else
      match fuel with
      | 0 => .error DomainError.fuelExhausted
      | f+1 =>
        nestedGroupLoop repos group.tenant_id
          (fun nested => Group.is_member repos f nested user) group.members))

/-- `GroupMemberService::is_user_in_nested_group` from
`group_member_service.rs:58`; identical to the nested branch of
`Group.is_member` above. -/
def is_user_in_nested_group (repos : Repos) (fuel : Nat) (group : Group)
    (user : User) : Except DomainError Bool :=
  match fuel with
  | 0 => .error DomainError.fuelExhausted
  | f+1 =>
    nestedGroupLoop repos group.tenant_id
      (fun nested => Group.is_member repos f nested user) group.members

/-- `Group::remove_group` from `group.rs:105`: tenant check, then structural
removal (`retain`) of the member; removing an absent member is a no-op. -/
def Group.remove_group (self : Group) (other : Group) : Except DomainError Group :=
  match validate.equals "tenant_id" other.tenant_id self.tenant_id with
  | .error e => .error (.validation e)
  | .ok _ =>
    let member := GroupMember.group other.name
    .ok {self with members := self.members.filter (fun m => m != member)}

/-- `Group::remove_user` from `group.rs:113`. -/
def Group.remove_user (self : Group) (u : User) : Except DomainError Group :=
  match validate.equals "tenant_id" u.tenant_id self.tenant_id with
  | .error e => .error (.validation e)
  | .ok _ =>
    let member := GroupMember.user u.username
    .ok {self with members := self.members.filter (fun m => m != member)}

/-- `Role` from `iam/src/domain/access/role.rs:30`; the persistence metadata
fields (`id`, `version`, `created_at`, `updated_at`) are omitted — no claim
concerns them. -/
structure Role where
  tenant_id : Nat
  name : String
  description : Option String
  supports_nesting : Bool
  group : Group
deriving DecidableEq, Repr

/-- `Role::assign_group` from `role.rs:118`:
`validate::is_true(self.supports_nesting, ...)` (inverted body, see
`validate.rs:54`), tenant check, then delegation to `Group::add_group` on the
backing group. -/
def Role.assign_group (repos : Repos) (fuel : Nat) (role : Role) (g : Group) :
    Except DomainError Role :=
  match validate.is_true role.supports_nesting "this role does not support group nesting" with
  | .error e => .error (.validation e)
  | .ok _ =>
    match validate.equals "tenant_id" g.tenant_id role.tenant_id with
    | .error e => .error (.validation e)
    | .ok _ =>
      match Group.add_group repos fuel role.group g with
      | .ok g2 => .ok {role with group := g2}
      | .error e => .error e

/-- `Role::unassign_group` from `role.rs:143`: same nesting check, tenant
check, then delegation to `Group::remove_group`. -/
def Role.unassign_group (role : Role) (g : Group) : Except DomainError Role :=
  match validate.is_true role.supports_nesting "this role does not support group nesting" with
  | .error e => .error (.validation e)
  | .ok _ =>
    match validate.equals "tenant_id" g.tenant_id role.tenant_id with
    | .error e => .error (.validation e)
    | .ok _ =>
      match Group.remove_group role.group g with
      | .ok g2 => .ok {role with group := g2}
      | .error e => .error e

/-- A repository pair in which every lookup reports not-found; used by the
concrete evaluations below. -/
def reposEmpty : Repos :=
  ⟨fun _ _ => RepoResult.notFound, fun _ _ => RepoResult.notFound⟩

/-- Reduction of `Except.bind` on an error, used to push validation failures
through the monadic plumbing. -/
theorem except_bind_error {ε α β : Type} (e : ε) (f : α → Except ε β) :
    Except.bind (Except.error e) f = Except.error e := rfl

/-- Reduction of `Except.bind` on a success. -/
theorem except_bind_ok {ε α β : Type} (a : α) (f : α → Except ε β) :
    Except.bind (Except.ok a) f = f a := rfl

/-- Reduction of `Except.mapError` on an error. -/
theorem except_mapError_error {ε η α : Type} (g : ε → η) (e : ε) :
    Except.mapError g (Except.error e : Except ε α) = Except.error (g e) := rfl

/-- Reduction of `Except.mapError` on a success. -/
theorem except_mapError_ok {ε η α : Type} (g : ε → η) (a : α) :
    Except.mapError g (Except.ok a : Except ε α) = Except.ok a := rfl

/-- C4: `Validity::new(Some(t0), Some(t1))` fails exactly when `t0 > t1` and
returns `Between(t0, t1)` otherwise; for every instant `now`,
`Between(t0,t1).is_valid` holds iff `t0 ≤ now ≤ t1`, `StartingOn(t).is_valid`
iff `now ≥ t`, `Until(t).is_valid` iff `now ≤ t`, and `OpenEnded.is_valid`
always holds. -/
theorem validity_interval_correct (t0 t1 t now : Int) :
    (Validity.new (some t0) (some t1) = .ok (Validity.between t0 t1) ↔ t0 ≤ t1)
    ∧ ((∃ e, Validity.new (some t0) (some t1) = .error e) ↔ t0 > t1)
    ∧ (Validity.is_valid (Validity.between t0 t1) now = true ↔ t0 ≤ now ∧ now ≤ t1)
    ∧ (Validity.is_valid (Validity.startingOn t) now = true ↔ now ≥ t)
    ∧ (Validity.is_valid (Validity.until t) now = true ↔ now ≤ t)
    ∧ Validity.is_valid Validity.openEnded now = true := by
  refine ⟨?_, ?_, ?_, ?_, ?_, rfl⟩
  · unfold Validity.new validate.max
    by_cases h : t0 > t1
    · simp only [if_pos h]
      constructor
      · intro hc; exact absurd hc (by simp)
      · intro hc; omega
    · simp only [if_neg h]
      constructor
      · intro _; omega
      · intro _; trivial
  · unfold Validity.new validate.max
    by_cases h : t0 > t1
    · simp only [if_pos h]
      exact ⟨fun _ => h, fun _ => ⟨_, rfl⟩⟩
    · simp only [if_neg h]
      constructor
      · rintro ⟨e, he⟩; exact absurd he (by simp)
      · intro hc; exact absurd hc h
  · simp [Validity.is_valid]
  · simp [Validity.is_valid, ge_iff_le]
  · simp [Validity.is_valid]

/-- C9 counterexample: a description of 101 characters lies inside the claimed
1..255 range, yet `InvitationDescription.new` rejects it — the bound enforced
by the code (and asserted by its own tests) is 100 characters, not 255. -/
theorem invitation_description_101_rejected :
    (1 ≤ (String.mk (List.replicate 101 'a')).length
      ∧ (String.mk (List.replicate 101 'a')).length ≤ 255)
    ∧ InvitationDescription.new (String.mk (List.replicate 101 'a'))
        = .error (.tooLong "description" 100) := by
  constructor
  · decide
  · decide

/-- C9 (amended): constructing a registration-invitation description from `s`
succeeds exactly when `s` is non-empty and at most 100 characters long, and
fails exactly when `s` is empty or longer than 100 characters. -/
theorem invitation_description_length_rule (s : String) :
    (InvitationDescription.new s = .ok s ↔ (s ≠ "" ∧ s.length ≤ 100))
    ∧ ((∃ e, InvitationDescription.new s = .error e) ↔ (s = "" ∨ s.length > 100)) := by
  unfold InvitationDescription.new validate.not_empty validate.max_length
  by_cases h0 : s = ""
  · simp [h0]
  · by_cases h1 : s.length > 100
    · simp [h0, h1]
    · simp [h0, h1]
      omega

/-- C5: on a tenant whose status is not `Active`, each invitation-mutating
operation (`offer_invitation`, `redefine_invitation_as`,
`withdraw_invitation`) fails with `NotActive`; a failing call produces no
updated tenant, so the invitation list is exactly as before. -/
theorem tenant_inactive_rejects_invitation_ops
    (t : Tenant) (h : t.status ≠ TenantStatus.active) (now : Int)
    (newId d ident : String)
    (rf : InvitationValidity → Except InvitationValidityError InvitationValidity) :
    Tenant.offer_invitation t now newId d = .error TenantError.notActive
    ∧ Tenant.redefine_invitation_as t ident rf = .error TenantError.notActive
    ∧ Tenant.withdraw_invitation t ident = .error TenantError.notActive := by
  have hs : t.assert_active = .error TenantError.notActive := by
    unfold Tenant.assert_active
    cases hst : t.status with
    | active => exact absurd hst h
    | inactive => rfl
  refine ⟨?_, ?_, ?_⟩ <;>
    simp [Tenant.offer_invitation, Tenant.redefine_invitation_as,
          Tenant.withdraw_invitation, hs]

/-- C5 witness: the inactive-tenant guard evaluated at a concrete tenant. -/
theorem tenant_inactive_rejects_invitation_ops_witness :
    Tenant.offer_invitation ⟨0, "T", none, TenantStatus.inactive, []⟩ 0 "i1" "D"
        = .error TenantError.notActive
    ∧ Tenant.redefine_invitation_as ⟨0, "T", none, TenantStatus.inactive, []⟩ "D"
        (fun v => .ok v) = .error TenantError.notActive
    ∧ Tenant.withdraw_invitation ⟨0, "T", none, TenantStatus.inactive, []⟩ "D"
        = .error TenantError.notActive :=
  tenant_inactive_rejects_invitation_ops ⟨0, "T", none, TenantStatus.inactive, []⟩
    (by decide) 0 "i1" "D" "D" (fun v => .ok v)

/-- C6: when the operand's tenant id differs from the group's,
`Group::add_user`, `Group::add_group` and `Group::is_member` all fail with the
tenant-mismatch error (`validate::equals` on "tenant_id") before anything else
runs — regardless of repositories, fuel, or the shape of the membership graph
— and the failing mutating calls return no updated group. -/
theorem cross_tenant_operations_rejected
    (repos : Repos) (fuel : Nat) (g : Group) (u : User) (g2 : Group)
    (hu : u.tenant_id ≠ g.tenant_id) (hg : g2.tenant_id ≠ g.tenant_id) :
    Group.add_user g u
        = .error (.validation (.notEqual "tenant_id" (toString g.tenant_id)))
    ∧ Group.add_group repos fuel g g2
        = .error (.validation (.notEqual "tenant_id" (toString g.tenant_id)))
    ∧ Group.is_member repos fuel g u
        = .error (.validation (.notEqual "tenant_id" (toString g.tenant_id))) := by
  have heu : validate.equals "tenant_id" u.tenant_id g.tenant_id
      = .error (.notEqual "tenant_id" (toString g.tenant_id)) := by
    unfold validate.equals
    rw [if_pos hu]
  have heg : validate.equals "tenant_id" g2.tenant_id g.tenant_id
      = .error (.notEqual "tenant_id" (toString g.tenant_id)) := by
    unfold validate.equals
    rw [if_pos hg]
  refine ⟨?_, ?_, ?_⟩
  · simp [Group.add_user, heu]
  · simp [Group.add_group, heg]
  · rw [Group.is_member.eq_def, heu, except_mapError_error, except_bind_error]

/-- C6 witness: the three tenant-mismatch failures at concrete values. -/
theorem cross_tenant_operations_rejected_witness :
    Group.add_user ⟨0, "G", "g", []⟩ ⟨1, "alice", true⟩
        = .error (.validation (.notEqual "tenant_id" "0"))
    ∧ Group.add_group reposEmpty 1 ⟨0, "G", "g", []⟩ ⟨2, "H", "h", []⟩
        = .error (.validation (.notEqual "tenant_id" "0"))
    ∧ Group.is_member reposEmpty 1 ⟨0, "G", "g", []⟩ ⟨1, "alice", true⟩
        = .error (.validation (.notEqual "tenant_id" "0")) :=
  cross_tenant_operations_rejected reposEmpty 1 ⟨0, "G", "g", []⟩
    ⟨1, "alice", true⟩ ⟨2, "H", "h", []⟩ (by decide) (by decide)

/-- C10: `Group::remove_user` and `Group::remove_group` fail with the
tenant-mismatch error when the operand belongs to a different tenant (leaving
the members untouched, since no updated group is produced), whereas removing
an absent same-tenant member succeeds as a silent no-op returning the group
unchanged. -/
theorem cross_tenant_removal_rejected
    (g : Group) (u : User) (g2 : Group) (u3 : User) (g3 : Group)
    (hu : u.tenant_id ≠ g.tenant_id) (hg : g2.tenant_id ≠ g.tenant_id)
    (hu3 : u3.tenant_id = g.tenant_id)
    (hmu : GroupMember.user u3.username ∉ g.members)
    (hg3 : g3.tenant_id = g.tenant_id)
    (hmg : GroupMember.group g3.name ∉ g.members) :
    Group.remove_user g u
        = .error (.validation (.notEqual "tenant_id" (toString g.tenant_id)))
    ∧ Group.remove_group g g2
        = .error (.validation (.notEqual "tenant_id" (toString g.tenant_id)))
    ∧ Group.remove_user g u3 = .ok g
    ∧ Group.remove_group g g3 = .ok g := by
  refine ⟨?_, ?_, ?_, ?_⟩
  · simp [Group.remove_user, validate.equals, if_pos hu, hu]
  · simp [Group.remove_group, validate.equals, if_pos hg, hg]
  · have hf : g.members.filter (fun m => m != GroupMember.user u3.username)
        = g.members := by
      apply List.filter_eq_self.mpr
      intro a ha
      simp only [bne_iff_ne, ne_eq]
      intro hc
      exact hmu (hc ▸ ha)
    simp [Group.remove_user, validate.equals, hu3, hf]
  · have hf : g.members.filter (fun m => m != GroupMember.group g3.name)
        = g.members := by
      apply List.filter_eq_self.mpr
      intro a ha
      simp only [bne_iff_ne, ne_eq]
      intro hc
      exact hmg (hc ▸ ha)
    simp [Group.remove_group, validate.equals, hg3, hf]

/-- C10 witness: cross-tenant removals fail, absent same-tenant removals are
accepted no-ops, at concrete values. -/
theorem cross_tenant_removal_rejected_witness :
    Group.remove_user ⟨0, "G", "g", [GroupMember.user "carol"]⟩ ⟨1, "alice", true⟩
        = .error (.validation (.notEqual "tenant_id" "0"))
    ∧ Group.remove_group ⟨0, "G", "g", [GroupMember.user "carol"]⟩ ⟨2, "H", "h", []⟩
        = .error (.validation (.notEqual "tenant_id" "0"))
    ∧ Group.remove_user ⟨0, "G", "g", [GroupMember.user "carol"]⟩ ⟨0, "bob", true⟩
        = .ok ⟨0, "G", "g", [GroupMember.user "carol"]⟩
    ∧ Group.remove_group ⟨0, "G", "g", [GroupMember.user "carol"]⟩ ⟨0, "K", "k", []⟩
        = .ok ⟨0, "G", "g", [GroupMember.user "carol"]⟩ :=
  cross_tenant_removal_rejected ⟨0, "G", "g", [GroupMember.user "carol"]⟩
    ⟨1, "alice", true⟩ ⟨2, "H", "h", []⟩ ⟨0, "bob", true⟩ ⟨0, "K", "k", []⟩
    (by decide) (by decide) (by decide) (by decide) (by decide) (by decide)

/-- C2: the claim says `add_user` (and the same precondition in `is_member`)
succeeds exactly when the same-tenant user is enabled, but the code calls
`validate::is_true` whose body in `validate.rs:54-60` is inverted (it returns
`Ok` when the value is false): evaluated at concrete same-tenant users, an
ENABLED user is rejected with the "user is not enabled" error while a
DISABLED user is accepted and added, and `is_member` likewise errors on the
enabled user and proceeds for the disabled one. -/
theorem add_user_enablement_check_inverted :
    Group.add_user ⟨0, "G", "g", []⟩ ⟨0, "alice", true⟩
        = .error (.validation (.generic "user is not enabled"))
    ∧ Group.add_user ⟨0, "G", "g", []⟩ ⟨0, "bob", false⟩
        = .ok ⟨0, "G", "g", [GroupMember.user "bob"]⟩
    ∧ Group.is_member reposEmpty 1 ⟨0, "G", "g", []⟩ ⟨0, "alice", true⟩
        = .error (.validation (.generic "user is not enabled"))
    ∧ Group.is_member reposEmpty 1 ⟨0, "G", "g", []⟩ ⟨0, "bob", false⟩
        = .ok false := by
  refine ⟨rfl, rfl, rfl, ?_⟩
  rfl

/-- C3: the claim says `assign_group`/`unassign_group` are permitted only when
`supports_nesting` is true, but both guards go through the inverted
`validate::is_true`: evaluated at concrete roles, a role WITH nesting support
is rejected with the "does not support group nesting" error, while a role
WITHOUT nesting support passes the guard and reaches the backing group's
membership operation. -/
theorem role_nesting_check_inverted :
    Role.assign_group reposEmpty 1
        ⟨0, "admin", none, true, ⟨0, "RG-admin", "backing", []⟩⟩ ⟨0, "H", "h", []⟩
        = .error (.validation (.generic "this role does not support group nesting"))
    ∧ Role.unassign_group
        ⟨0, "admin", none, true, ⟨0, "RG-admin", "backing", []⟩⟩ ⟨0, "H", "h", []⟩
        = .error (.validation (.generic "this role does not support group nesting"))
    ∧ Role.assign_group reposEmpty 1
        ⟨0, "viewer", none, false, ⟨0, "RG-viewer", "backing", []⟩⟩ ⟨0, "H", "h", []⟩
        = .ok ⟨0, "viewer", none, false, ⟨0, "RG-viewer", "backing", [GroupMember.group "H"]⟩⟩
    ∧ Role.unassign_group
        ⟨0, "viewer", none, false, ⟨0, "RG-viewer", "backing", []⟩⟩ ⟨0, "H", "h", []⟩
        = .ok ⟨0, "viewer", none, false, ⟨0, "RG-viewer", "backing", []⟩⟩ := by
  refine ⟨rfl, rfl, ?_, ?_⟩ <;> rfl

/-- C1 counterexample: the direct self-edge is NOT rejected. Adding group "A"
to itself succeeds (`Ok`), because the cycle guard only searches the candidate
group's members for `self` and never compares the candidate itself, and the
members list afterwards contains the group itself — so a group can come to
(directly) contain itself, contradicting the claim. -/
theorem add_group_self_edge_allowed :
    Group.add_group reposEmpty 1 ⟨0, "A", "a", []⟩ ⟨0, "A", "a", []⟩
      = .ok ⟨0, "A", "a", [GroupMember.group "A"]⟩ := by
  rfl

/-- C1 (amended): when the candidate group already (transitively, per the
repository) has `self` among its reachable members — any cycle of length at
least 2 — the closing `add_group` call fails with the "group recursion
detected" error and, returning no updated group, leaves the members unchanged;
when the search comes back false the edge is added (idempotently). The direct
self-edge is not detected by this guard and succeeds (see the
counterexample), so "no group ever transitively contains itself" does not
hold. -/
theorem add_group_recursion_guard :
    (∀ (repos : Repos) (fuel : Nat) (self other : Group),
      other.tenant_id = self.tenant_id →
      is_member_group repos fuel other (GroupMember.group self.name) = .ok true →
      Group.add_group repos fuel self other
        = .error (.validation (.generic "group recursion detected")))
    ∧ (∀ (repos : Repos) (fuel : Nat) (self other : Group),
      other.tenant_id = self.tenant_id →
      is_member_group repos fuel other (GroupMember.group self.name) = .ok false →
      Group.add_group repos fuel self other
        = .ok (if self.members.contains (GroupMember.group other.name) then self
               else {self with members := self.members ++ [GroupMember.group other.name]})) := by
  constructor
  · intro repos fuel self other ht hmem
    have he : validate.equals "tenant_id" other.tenant_id self.tenant_id = .ok () := by
      unfold validate.equals
      rw [if_neg (not_not_intro ht)]
    simp [Group.add_group, he, hmem, validate.is_false]
  · intro repos fuel self other ht hmem
    have he : validate.equals "tenant_id" other.tenant_id self.tenant_id = .ok () := by
      unfold validate.equals
      rw [if_neg (not_not_intro ht)]
    simp [Group.add_group, he, hmem, validate.is_false]
    split <;> rfl

/-- C1 witness: a length-2 cycle (B already contains A) is rejected with the
recursion error, and a cycle-free addition succeeds and appends the member. -/
theorem add_group_recursion_guard_witness :
    Group.add_group reposEmpty 1 ⟨0, "A", "a", []⟩ ⟨0, "B", "b", [GroupMember.group "A"]⟩
      = .error (.validation (.generic "group recursion detected"))
    ∧ Group.add_group reposEmpty 1 ⟨0, "A", "a", []⟩ ⟨0, "C", "c", []⟩
      = .ok ⟨0, "A", "a", [GroupMember.group "C"]⟩ := by
  obtain ⟨h1, h2⟩ := add_group_recursion_guard
  constructor
  · exact h1 reposEmpty 1 ⟨0, "A", "a", []⟩ ⟨0, "B", "b", [GroupMember.group "A"]⟩
      rfl (by decide)
  · have h := h2 reposEmpty 1 ⟨0, "A", "a", []⟩ ⟨0, "C", "c", []⟩ rfl (by decide)
    rw [h]
    rfl

/-- C8 counterexample: a reachable duplicate description. Starting from a
fresh active tenant, offering description "D" succeeds; a successful
`redefine_invitation_as` narrows its validity to `Until(5)`; at instant 10
that invitation is unavailable, so `is_registration_available_through` reports
false and a second `offer_invitation` with the same description "D" succeeds —
leaving the tenant with TWO invitations whose descriptions are both "D". -/
theorem offer_invitation_duplicate_description :
    Tenant.offer_invitation ⟨0, "T", none, TenantStatus.active, []⟩ 0 "id1" "D"
      = .ok ⟨0, "T", none, TenantStatus.active,
             [⟨"id1", "D", InvitationValidity.openEnded⟩]⟩
    ∧ Tenant.redefine_invitation_as
        ⟨0, "T", none, TenantStatus.active, [⟨"id1", "D", InvitationValidity.openEnded⟩]⟩
        "D" (fun _ => .ok (InvitationValidity.until 5))
      = .ok ⟨0, "T", none, TenantStatus.active,
             [⟨"id1", "D", InvitationValidity.until 5⟩]⟩
    ∧ Tenant.offer_invitation
        ⟨0, "T", none, TenantStatus.active, [⟨"id1", "D", InvitationValidity.until 5⟩]⟩
        10 "id2" "D"
      = .ok ⟨0, "T", none, TenantStatus.active,
             [⟨"id1", "D", InvitationValidity.until 5⟩,
              ⟨"id2", "D", InvitationValidity.openEnded⟩]⟩
    ∧ (([⟨"id1", "D", InvitationValidity.until 5⟩,
         ⟨"id2", "D", InvitationValidity.openEnded⟩] :
           List RegistrationInvitation).map RegistrationInvitation.description
        = ["D", "D"]) := by
  refine ⟨rfl, rfl, rfl, rfl⟩

/-- Helper: `find?` over a list extended with a matching element always finds
something. -/
theorem find_append_single {α : Type} (p : α → Bool) (l : List α) (x : α)
    (hx : p x = true) : ∃ y, (l ++ [x]).find? p = some y := by
  induction l with
  | nil => exact ⟨x, by simp [List.find?, hx]⟩
  | cons a rest ih =>
    by_cases ha : p a
    · exact ⟨a, by simp [List.find?_cons_of_pos, ha]⟩
    · obtain ⟨y, hy⟩ := ih
      refine ⟨y, ?_⟩
      rw [List.cons_append, List.find?_cons_of_neg _ (by simp [ha]), hy]

/-- C8 (amended): `offer_invitation` rejects a description (with
`InvitationExists`) exactly when the FIRST invitation currently identified by
it is available; whenever `is_registration_available_through` reports false on
an active tenant — including when an invitation with the same description
exists but is unavailable — a fresh open-ended invitation is appended, so
duplicate descriptions (and uncontrolled random ids) are reachable. -/
theorem offer_invitation_availability_guard :
    (∀ (t : Tenant) (now : Int) (newId d : String),
      t.is_registration_available_through now d = .ok true →
      t.offer_invitation now newId d = .error (.invitationExists d))
    ∧ (∀ (t : Tenant) (now : Int) (newId d : String),
      t.status = TenantStatus.active →
      t.is_registration_available_through now d = .ok false →
      t.offer_invitation now newId d
        = .ok {t with invitations :=
                 t.invitations ++ [RegistrationInvitation.new newId d]}) := by
  constructor
  · intro t now newId d h
    have hact : t.assert_active = .ok () := by
      cases ha : t.assert_active with
      | ok u => cases u; rfl
      | error e =>
        rw [Tenant.is_registration_available_through, ha] at h
        exact absurd h (by simp)
    simp [Tenant.offer_invitation, hact, h]
  · intro t now newId d hstat h
    have hact : t.assert_active = .ok () := by
      simp [Tenant.assert_active, hstat]
    have hfind := find_append_single
      (fun inv => inv.is_identified_by d) t.invitations
      (RegistrationInvitation.new newId d)
      (by simp [RegistrationInvitation.is_identified_by, RegistrationInvitation.new])
    obtain ⟨y, hy⟩ := hfind
    simp [Tenant.offer_invitation, hact, h, hy]

/-- C8 witness: on an active tenant an available "D" blocks re-offering, and
offering on a fresh active tenant appends the open-ended invitation. -/
theorem offer_invitation_availability_guard_witness :
    Tenant.offer_invitation
        ⟨0, "T", none, TenantStatus.active, [⟨"id1", "D", InvitationValidity.openEnded⟩]⟩
        0 "id2" "D"
      = .error (.invitationExists "D")
    ∧ Tenant.offer_invitation ⟨0, "T", none, TenantStatus.active, []⟩ 0 "id1" "D"
      = .ok ⟨0, "T", none, TenantStatus.active,
             [⟨"id1", "D", InvitationValidity.openEnded⟩]⟩ := by
  obtain ⟨h1, h2⟩ := offer_invitation_availability_guard
  constructor
  · exact h1 ⟨0, "T", none, TenantStatus.active,
      [⟨"id1", "D", InvitationValidity.openEnded⟩]⟩ 0 "id2" "D" (by decide)
  · have h := h2 ⟨0, "T", none, TenantStatus.active, []⟩ 0 "id1" "D" rfl (by decide)
    rw [h]
    rfl

/-- Helper: the `is_member_group` loop returns false (not an error) when the
sought member is not in the list and every nested-group reference dangles
(resolves to not-found). -/
theorem isMemberGroupLoop_all_notFound (repos : Repos) (tid : Nat)
    (m : GroupMember) (recur : Group → Except DomainError Bool)
    (l : List GroupMember) (hm : m ∉ l)
    (hd : ∀ n, GroupMember.group n ∈ l →
      repos.findGroupByName tid n = RepoResult.notFound) :
    isMemberGroupLoop repos tid m recur l = .ok false := by
  induction l with
  | nil => rfl
  | cons gm rest ih =>
    have hm2 : m ∉ rest := fun h => hm (List.mem_cons_of_mem _ h)
    have hd2 : ∀ n, GroupMember.group n ∈ rest →
        repos.findGroupByName tid n = RepoResult.notFound :=
      fun n hn => hd n (List.mem_cons_of_mem _ hn)
    have hne : ¬(gm = m) := fun hc => hm (hc ▸ List.mem_cons_self gm rest)
    simp only [isMemberGroupLoop]
    rw [if_neg hne]
    cases gm with
    | user un => exact ih hm2 hd2
    | group name =>
      simp only [hd name (List.mem_cons_self _ _)]
      exact ih hm2 hd2

/-- Helper: the `is_user_in_nested_group` loop returns false (not an error)
when every nested-group reference dangles. -/
theorem nestedGroupLoop_all_notFound (repos : Repos) (tid : Nat)
    (recur : Group → Except DomainError Bool)
    (l : List GroupMember)
    (hd : ∀ n, GroupMember.group n ∈ l →
      repos.findGroupByName tid n = RepoResult.notFound) :
    nestedGroupLoop repos tid recur l = .ok false := by
  induction l with
  | nil => rfl
  | cons gm rest ih =>
    have hd2 : ∀ n, GroupMember.group n ∈ rest →
        repos.findGroupByName tid n = RepoResult.notFound :=
      fun n hn => hd n (List.mem_cons_of_mem _ hn)
    simp only [nestedGroupLoop]
    cases gm with
    | user un => exact ih hd2
    | group name =>
      simp only [hd name (List.mem_cons_self _ _)]
      exact ih hd2

/-- C7: repository error policy of the traversal. `confirm_user` maps a
not-found user to `Ok(false)`, propagates any other repository error, and
reports the re-resolved user's enablement when found; `is_member_group` and
`is_user_in_nested_group` skip dangling nested-group references and complete
with `Ok(false)`, while a repository failure other than not-found on a
nested-group lookup aborts the whole traversal with that error. -/
theorem traversal_error_policy :
    (∀ (repos : Repos) (g : Group) (u : User),
      repos.findUserByUsername g.tenant_id u.username = RepoResult.notFound →
      confirm_user repos g u = .ok false)
    ∧ (∀ (repos : Repos) (g : Group) (u : User) (e : String),
      repos.findUserByUsername g.tenant_id u.username = RepoResult.failure e →
      confirm_user repos g u = .error (.repoFailure e))
    ∧ (∀ (repos : Repos) (g : Group) (u u2 : User),
      repos.findUserByUsername g.tenant_id u.username = RepoResult.found u2 →
      confirm_user repos g u = .ok u2.is_enabled)
    ∧ (∀ (repos : Repos) (fuel : Nat) (g : Group) (m : GroupMember),
      m ∉ g.members →
      (∀ n, GroupMember.group n ∈ g.members →
        repos.findGroupByName g.tenant_id n = RepoResult.notFound) →
      is_member_group repos (fuel+1) g m = .ok false)
    ∧ (∀ (repos : Repos) (fuel : Nat) (g : Group) (m : GroupMember)
        (name : String) (rest : List GroupMember) (e : String),
      g.members = GroupMember.group name :: rest →
      GroupMember.group name ≠ m →
      repos.findGroupByName g.tenant_id name = RepoResult.failure e →
      is_member_group repos (fuel+1) g m = .error (.repoFailure e))
    ∧ (∀ (repos : Repos) (fuel : Nat) (g : Group) (u : User),
      (∀ n, GroupMember.group n ∈ g.members →
        repos.findGroupByName g.tenant_id n = RepoResult.notFound) →
      is_user_in_nested_group repos (fuel+1) g u = .ok false)
    ∧ (∀ (repos : Repos) (fuel : Nat) (g : Group) (u : User)
        (name : String) (rest : List GroupMember) (e : String),
      g.members = GroupMember.group name :: rest →
      repos.findGroupByName g.tenant_id name = RepoResult.failure e →
      is_user_in_nested_group repos (fuel+1) g u = .error (.repoFailure e)) := by
  refine ⟨?_, ?_, ?_, ?_, ?_, ?_, ?_⟩
  · intro repos g u h
    simp [confirm_user, h]
  · intro repos g u e h
    simp [confirm_user, h]
  · intro repos g u u2 h
    simp [confirm_user, h]
  · intro repos fuel g m hm hd
    simp only [is_member_group]
    exact isMemberGroupLoop_all_notFound repos g.tenant_id m _ g.members hm hd
  · intro repos fuel g m name rest e hmembers hne hfail
    simp only [is_member_group, hmembers, isMemberGroupLoop]
    rw [if_neg hne]
    simp only [hfail]
  · intro repos fuel g u hd
    simp only [is_user_in_nested_group]
    exact nestedGroupLoop_all_notFound repos g.tenant_id _ g.members hd
  · intro repos fuel g u name rest e hmembers hfail
    simp only [is_user_in_nested_group, hmembers, nestedGroupLoop]
    simp only [hfail]

/-- A repository pair exercising each lookup outcome: group "boom" fails with
a non-not-found error, every other group is absent; user "alice" is found
(enabled), user "ghost" is absent, any other user lookup fails. -/
def reposProbe : Repos :=
  ⟨fun _ n => if n = "boom" then RepoResult.failure "db down" else RepoResult.notFound,
   fun _ un =>
     if un = "alice" then RepoResult.found ⟨0, "alice", true⟩
     else if un = "ghost" then RepoResult.notFound
     else RepoResult.failure "db down"⟩

/-- C7 witness: each arm of the error policy evaluated at concrete inputs. -/
theorem traversal_error_policy_witness :
    confirm_user reposProbe ⟨0, "G", "g", []⟩ ⟨0, "ghost", true⟩ = .ok false
    ∧ confirm_user reposProbe ⟨0, "G", "g", []⟩ ⟨0, "bob", true⟩
        = .error (.repoFailure "db down")
    ∧ confirm_user reposProbe ⟨0, "G", "g", []⟩ ⟨0, "alice", false⟩ = .ok true
    ∧ is_member_group reposProbe 1 ⟨0, "G", "g", [GroupMember.group "ghost"]⟩
        (GroupMember.user "x") = .ok false
    ∧ is_member_group reposProbe 1 ⟨0, "G", "g", [GroupMember.group "boom"]⟩
        (GroupMember.user "x") = .error (.repoFailure "db down")
    ∧ is_user_in_nested_group reposProbe 1
        ⟨0, "G", "g", [GroupMember.group "ghost", GroupMember.user "y"]⟩
        ⟨0, "u", true⟩ = .ok false
    ∧ is_user_in_nested_group reposProbe 1 ⟨0, "G", "g", [GroupMember.group "boom"]⟩
        ⟨0, "u", true⟩ = .error (.repoFailure "db down") := by
  obtain ⟨hA, hB, hC, hD, hE, hF, hG⟩ := traversal_error_policy
  refine ⟨hA reposProbe ⟨0, "G", "g", []⟩ ⟨0, "ghost", true⟩ rfl,
          hB reposProbe ⟨0, "G", "g", []⟩ ⟨0, "bob", true⟩ "db down" rfl,
          hC reposProbe ⟨0, "G", "g", []⟩ ⟨0, "alice", false⟩ ⟨0, "alice", true⟩ rfl,
          hD reposProbe 0 ⟨0, "G", "g", [GroupMember.group "ghost"]⟩
            (GroupMember.user "x") (by decide) ?_,
          hE reposProbe 0 ⟨0, "G", "g", [GroupMember.group "boom"]⟩
            (GroupMember.user "x") "boom" [] "db down" rfl (by decide) rfl,
          hF reposProbe 0
            ⟨0, "G", "g", [GroupMember.group "ghost", GroupMember.user "y"]⟩
            ⟨0, "u", true⟩ ?_,
          hG reposProbe 0 ⟨0, "G", "g", [GroupMember.group "boom"]⟩
            ⟨0, "u", true⟩ "boom" [] "db down" rfl rfl⟩
  · intro n hn
    rcases List.mem_cons.mp hn with h1 | h2
    · cases h1
      rfl
    · cases h2
  · intro n hn
    rcases List.mem_cons.mp hn with h1 | h2
    · cases h1
      rfl
    · rcases List.mem_cons.mp h2 with h3 | h4
      · cases h3
      · cases h4

end Iam
